import Mathlib

/-!
Verification of the bw-sms-backend repository: a shallow embedding of the
notification relay (twilio-sms-server/server.js, POST /send-sms) and of the
static host's environment-injection middleware, together with theorems about
the validation, dispatch/aggregation and record-logging behaviour.
-/

/-- The JavaScript values that can appear in the destructured request-body
fields `phoneNumbers`, `message` and `parkingLot`.  An absent field
destructures to `undef`.  Arrays are restricted to arrays of strings, which is
the shape every claim is about. -/
inductive JSVal where
  | undef
  | null
  | bool (b : Bool)
  | num (n : Int)
  | str (s : String)
  | arr (elems : List String)
deriving DecidableEq, Repr

/-- JavaScript truthiness of a `JSVal` (`!v` in the source is `!jsTruthy v`).
An array is always truthy, even when empty. -/
def jsTruthy : JSVal → Bool
  | JSVal.undef => false
  | JSVal.null => false
  | JSVal.bool b => b
  | JSVal.num n => n != 0
  | JSVal.str s => s != ""
  | JSVal.arr _ => true

/-- `Array.isArray` on the embedded values. -/
def jsIsArray : JSVal → Bool
  | JSVal.arr _ => true
  | _ => false

/-- `typeof v === "string"` on the embedded values. -/
def jsIsString : JSVal → Bool
  | JSVal.str _ => true
  | _ => false

/-- `.length` of an embedded array (only applied to arrays in the source). -/
def jsArrLen : JSVal → Nat
  | JSVal.arr xs => xs.length
  | _ => 0

/-- The elements of an embedded array. -/
def jsArrVals : JSVal → List String
  | JSVal.arr xs => xs
  | _ => []

/-- The string payload of an embedded string value. -/
def jsStrVal : JSVal → String
  | JSVal.str s => s
  | _ => ""

/-- JavaScript `a || b`: `a` when truthy, else `b`
(server.js line 166: `parkingLot || "Unknown"`). -/
def jsOr (v fallback : JSVal) : JSVal :=
  if jsTruthy v then v else fallback

/-- The destructured body of a POST /send-sms request
(server.js line 117: `const { phoneNumbers, message, parkingLot } = req.body`). -/
structure SmsRequestBody where
  phoneNumbers : JSVal
  message : JSVal
  parkingLot : JSVal
deriving DecidableEq, Repr

/-- The three 400-level validation failures of server.js lines 120-147,
using the taxonomy names of the specification. -/
inductive ValidationError where
  | missingOrInvalidRecipients
  | missingOrInvalidMessage
  | invalidPhoneNumbers (invalidNumbers : List String)
deriving DecidableEq, Repr

/-- `'0' <= c && c <= '9'` via code points, the character class `\d`. -/
def isE164Digit09 (c : Char) : Bool :=
  48 ≤ c.toNat && c.toNat ≤ 57

/-- `'1' <= c && c <= '9'` via code points, the character class `[1-9]`. -/
def isE164Digit19 (c : Char) : Bool :=
  49 ≤ c.toNat && c.toNat ≤ 57

/-- `phoneRegex.test`, for `const phoneRegex = /^\+[1-9]\d{1,14}$/`
(server.js line 138): a plus sign, a digit 1-9, then 1 to 14 digits. -/
def e164Test (s : String) : Bool :=
  match s.data with
  | '+' :: d :: rest =>
    isE164Digit19 d && decide (1 ≤ rest.length) && decide (rest.length ≤ 14)
      && rest.all isE164Digit09
  | _ => false

/-- The validation prefix of the POST /send-sms handler, server.js lines
120-147: the three rules in source order, first failure winning, with the
invalid-number rule collecting every non-matching entry via `filter`. -/
def validateSendSms (body : SmsRequestBody) :
    Except ValidationError (List String × String) :=
  if !jsTruthy body.phoneNumbers || !jsIsArray body.phoneNumbers
      || jsArrLen body.phoneNumbers == 0 then
    Except.error ValidationError.missingOrInvalidRecipients
  else if !jsTruthy body.message || !jsIsString body.message then
    Except.error ValidationError.missingOrInvalidMessage
  else
    let nums := jsArrVals body.phoneNumbers
    let invalidNumbers := nums.filter (fun n => !e164Test n)
    if invalidNumbers.length > 0 then
      Except.error (ValidationError.invalidPhoneNumbers invalidNumbers)
    else
      Except.ok (nums, jsStrVal body.message)

/-- Result of one `client.messages.create` call: either a message with a SID
or a rejection carrying `error.message`. -/
inductive ProviderResult where
  | ok (sid : String)
  | err (message : String)
deriving DecidableEq, Repr

/-- Result of one `notificationRef.set` call on the document store. -/
inductive StoreResult where
  | ok
  | err (message : String)
deriving DecidableEq, Repr

/-- The two external collaborators of the relay, as oracles indexed by the
iteration number of the dispatch loop: the messaging provider (also given the
recipient it is called with) and the document store. -/
structure DispatchEnv where
  provider : Nat → String → ProviderResult
  store : Nat → StoreResult

/-- One element of the `results` array of server.js lines 159 and 171:
`{ phoneNumber, sid, status: "success" }` or
`{ phoneNumber, error, status: "failed" }`; the field absent in the source is
`none` here. -/
structure SendOutcome where
  phoneNumber : String
  sid : Option String
  error : Option String
  status : String
deriving DecidableEq, Repr

/-- `results.push({ phoneNumber, sid: messageResult.sid, status: "success" })`. -/
def successOutcome (pn sid : String) : SendOutcome :=
  ⟨pn, some sid, none, "success"⟩

/-- `results.push({ phoneNumber, error: error.message, status: "failed" })`. -/
def failedOutcome (pn msg : String) : SendOutcome :=
  ⟨pn, none, some msg, "failed"⟩

/-- The placeholder `admin.database.ServerValue.TIMESTAMP`. -/
inductive ServerTimestamp where
  | serverValue
deriving DecidableEq, Repr

/-- The object written by `notificationRef.set` (server.js lines 163-168). -/
structure NotificationRecord where
  phoneNumber : String
  message : String
  parkingLot : JSVal
  timestamp : ServerTimestamp
deriving DecidableEq, Repr

/-- The record written for one successful send, with the
`parkingLot || "Unknown"` default. -/
def mkNotificationRecord (pn message : String) (parkingLot : JSVal) :
    NotificationRecord :=
  ⟨pn, message, jsOr parkingLot (JSVal.str "Unknown"), ServerTimestamp.serverValue⟩

/-- What the dispatch loop has produced once it finishes: the `results` array,
the final state of the `notifications` store (threaded through as an
append-only list), and the recipients passed to `client.messages.create`, in
call order. -/
structure LoopOut where
  results : List SendOutcome
  store : List NotificationRecord
  calls : List String
deriving DecidableEq, Repr

/-- The per-recipient dispatch loop of server.js lines 149-173.  Each
iteration awaits the provider; on success it pushes a success outcome and then
awaits the store write, and a failing store write is caught by the same
`catch`, which pushes an additional failed outcome for the same recipient; on
provider failure it pushes a single failed outcome. -/
def runSendLoop (env : DispatchEnv) (message : String) (parkingLot : JSVal) :
    Nat → List String → List NotificationRecord → LoopOut
  | _, [], store => ⟨[], store, []⟩
  | i, pn :: rest, store =>
    match env.provider i pn with
    | ProviderResult.ok sid =>
      match env.store i with
      | StoreResult.ok =>
        let t := runSendLoop env message parkingLot (i + 1) rest
          (store ++ [mkNotificationRecord pn message parkingLot])
        ⟨successOutcome pn sid :: t.results, t.store, pn :: t.calls⟩
      | StoreResult.err m =>
        let t := runSendLoop env message parkingLot (i + 1) rest store
        ⟨successOutcome pn sid :: failedOutcome pn m :: t.results, t.store,
          pn :: t.calls⟩
    | ProviderResult.err m =>
      let t := runSendLoop env message parkingLot (i + 1) rest store
      ⟨failedOutcome pn m :: t.results, t.store, pn :: t.calls⟩

/-- The observable output of the POST /send-sms handler: HTTP status, the
`success` field of the JSON body, the validation error (when any), the
`results` array (when the loop ran), the final store contents, and the
provider calls made. -/
structure HandlerOut where
  status : Nat
  success : Bool
  error : Option ValidationError
  results : Option (List SendOutcome)
  store : List NotificationRecord
  calls : List String
deriving DecidableEq, Repr

/-- The whole POST /send-sms handler, server.js lines 115-198: validation,
the dispatch loop, then the `allFailed` check of lines 175-189 choosing
between the 500 and the 200 response, both carrying the full `results`
array. -/
def handleSendSms (env : DispatchEnv) (initialStore : List NotificationRecord)
    (body : SmsRequestBody) : HandlerOut :=
  match validateSendSms body with
  | Except.error e => ⟨400, false, some e, none, initialStore, []⟩
  | Except.ok (phoneNumbers, message) =>
    let out := runSendLoop env message body.parkingLot 0 phoneNumbers initialStore
    let allFailed := out.results.all (fun r => r.status == "failed")
    if allFailed then ⟨500, false, none, some out.results, out.store, out.calls⟩
    else ⟨200, true, none, some out.results, out.store, out.calls⟩

/-- Specification-side list of the recipients whose provider call succeeds,
in input order, starting the iteration count at `i`. -/
def providerOk (r : ProviderResult) : Bool :=
  match r with
  | ProviderResult.ok _ => true
  | ProviderResult.err _ => false

/-- The recipients of the dispatch loop whose provider call succeeds. -/
def successfulRecipients (env : DispatchEnv) : Nat → List String → List String
  | _, [] => []
  | i, pn :: rest =>
    if providerOk (env.provider i pn) then
      pn :: successfulRecipients env (i + 1) rest
    else
      successfulRecipients env (i + 1) rest

/-- A dispatch environment in which every provider call succeeds with SID
"SM123" and every document-store write is rejected with "permission denied". -/
def storeFailEnv : DispatchEnv :=
  ⟨fun _ _ => ProviderResult.ok "SM123", fun _ => StoreResult.err "permission denied"⟩

/-- A dispatch environment in which the provider accepts the first recipient
and rejects every later one, and the document store accepts every write. -/
def mixedEnv : DispatchEnv :=
  ⟨fun i _ => if i == 0 then ProviderResult.ok "SM1"
    else ProviderResult.err "unreachable carrier",
   fun _ => StoreResult.ok⟩

/-- A dispatch environment in which every provider call fails and every
document-store write succeeds. -/
def allFailEnv : DispatchEnv :=
  ⟨fun _ _ => ProviderResult.err "unreachable carrier", fun _ => StoreResult.ok⟩

/-- A single-recipient request body: one valid E.164 recipient, message "hi",
`parkingLot` omitted. -/
def oneRecipientBody : SmsRequestBody :=
  ⟨JSVal.arr ["+15551234567"], JSVal.str "hi", JSVal.undef⟩

/-- A two-recipient request body with both recipients valid. -/
def twoRecipientBody : SmsRequestBody :=
  ⟨JSVal.arr ["+15551234567", "+447911123456"], JSVal.str "hi", JSVal.undef⟩

/-!
The static host (src/unnamed/part_000): the environment-injection middleware
of lines 147-178 and the JavaScript first-occurrence semantics of
`html.replace('</head>', envScript + '</head>')`.
-/

/-- `s.endsWith suffix` on strings, as a suffix test on the character lists. -/
def strEndsWith (s suffix : String) : Bool :=
  List.isSuffixOf suffix.data s.data

/-- Leftmost-occurrence splitter: `splitAtFirst pat s = some (a, b)` when `s`
decomposes as `a ++ pat ++ b` around the first occurrence of `pat`, and `none`
when `pat` does not occur in `s`. -/
def splitAtFirst (pat : List Char) : List Char → Option (List Char × List Char)
  | [] => none
  | c :: rest =>
    if List.isPrefixOf pat (c :: rest) then
      some ([], List.drop pat.length (c :: rest))
    else
      match splitAtFirst pat rest with
      | some (a, b) => some (c :: a, b)
      | none => none

/-- JavaScript `String.prototype.replace` with a string pattern: replace the
first occurrence only; return the string unchanged when the pattern does not
occur. -/
def replaceFirst (s pat rep : String) : String :=
  match splitAtFirst pat.data s.data with
  | some (a, b) => ⟨a ++ rep.data ++ b⟩
  | none => s

/-- Whether `pat` occurs as a contiguous substring of `s`. -/
def containsSub (pat : List Char) : List Char → Bool
  | [] => List.isEmpty pat
  | c :: rest => List.isPrefixOf pat (c :: rest) || containsSub pat rest

/-- Line 171 of the static host:
`html = html.replace('</head>', envScript + '</head>')`. -/
def injectEnv (envScript html : String) : String :=
  replaceFirst html "</head>" (envScript ++ "</head>")

/-- The file path the middleware reads, lines 150-152: `public/index.html`
for the root path, otherwise the request path under `public`. -/
def resolvePath (reqPath : String) : String :=
  if reqPath == "/" then "public/index.html" else "public" ++ reqPath

/-- What the middleware does with a request: respond with a body, or call
`next()` and fall through to static serving / the SPA fallback. -/
inductive MiddlewareResult where
  | send (body : String)
  | next
deriving DecidableEq, Repr

/-- The environment-injection middleware, static host lines 148-178: on a
path ending in `.html` or the root path, if the resolved file exists, respond
with its content after the head-tag injection; otherwise fall through.  The
file system is an oracle from paths to optional file contents
(`fs.existsSync` plus `fs.readFileSync`), and the serialized configuration
script is the `envScript` parameter. -/
def envInjectionMiddleware (fileSystem : String → Option String)
    (envScript reqPath : String) : MiddlewareResult :=
  if strEndsWith reqPath ".html" || reqPath == "/" then
    match fileSystem (resolvePath reqPath) with
    | some html => MiddlewareResult.send (injectEnv envScript html)
    | none => MiddlewareResult.next
  else
    MiddlewareResult.next


/-! Helper lemmas. -/

theorem exists_append_of_isPrefixOf (l : List Char) :
    ∀ s : List Char, List.isPrefixOf l s = true → ∃ t, s = l ++ t := by
  induction l with
  | nil => intro s _; exact ⟨s, rfl⟩
  | cons a l ih =>
    intro s h
    cases s with
    | nil => simp [List.isPrefixOf] at h
    | cons b s =>
      simp only [List.isPrefixOf, Bool.and_eq_true, beq_iff_eq] at h
      obtain ⟨t, ht⟩ := ih s h.2
      exact ⟨t, by simp [h.1, ht]⟩

theorem isPrefixOf_append_right (l : List Char) :
    ∀ s t : List Char, List.isPrefixOf l s = true →
      List.isPrefixOf l (s ++ t) = true := by
  induction l with
  | nil => intro s t _; simp [List.isPrefixOf]
  | cons a l ih =>
    intro s t h
    cases s with
    | nil => simp [List.isPrefixOf] at h
    | cons b s =>
      simp only [List.isPrefixOf, Bool.and_eq_true, beq_iff_eq] at h
      simp only [List.cons_append, List.isPrefixOf, Bool.and_eq_true, beq_iff_eq]
      exact ⟨h.1, ih s t h.2⟩

theorem splitAtFirst_eq_some (pat : List Char) (hpat : pat ≠ []) :
    ∀ s a b : List Char, splitAtFirst pat s = some (a, b) →
      s = a ++ pat ++ b ∧ containsSub pat a = false := by
  intro s
  induction s with
  | nil => intro a b h; simp [splitAtFirst] at h
  | cons c rest ih =>
    intro a b h
    rw [splitAtFirst] at h
    by_cases hp : List.isPrefixOf pat (c :: rest) = true
    · rw [if_pos hp] at h
      simp only [Option.some.injEq, Prod.mk.injEq] at h
      obtain ⟨ha, hb⟩ := h
      subst ha
      subst hb
      obtain ⟨t, ht⟩ := exists_append_of_isPrefixOf pat (c :: rest) hp
      refine ⟨?_, ?_⟩
      · rw [ht, List.drop_left pat t]
        simp
      · cases pat with
        | nil => exact absurd rfl hpat
        | cons p ps => rfl
    · rw [if_neg hp] at h
      cases hsp : splitAtFirst pat rest with
      | none => rw [hsp] at h; simp at h
      | some ab =>
        obtain ⟨a1, b1⟩ := ab
        rw [hsp] at h
        simp only [Option.some.injEq, Prod.mk.injEq] at h
        obtain ⟨ha, hb⟩ := h
        subst ha
        subst hb
        obtain ⟨hrest, hcs⟩ := ih a1 b1 hsp
        constructor
        · rw [hrest]; simp
        · rw [containsSub, Bool.or_eq_false_iff]
          refine ⟨?_, hcs⟩
          cases hcp : List.isPrefixOf pat (c :: a1) with
          | false => rfl
          | true =>
            exfalso
            apply hp
            have hext := isPrefixOf_append_right pat (c :: a1) (pat ++ b1) hcp
            have heq : (c :: a1) ++ (pat ++ b1) = c :: rest := by
              rw [hrest]; simp
            rwa [heq] at hext

theorem splitAtFirst_eq_none (pat : List Char) :
    ∀ s : List Char, containsSub pat s = false → splitAtFirst pat s = none := by
  intro s
  induction s with
  | nil => intro _; rfl
  | cons c rest ih =>
    intro h
    rw [containsSub, Bool.or_eq_false_iff] at h
    rw [splitAtFirst, if_neg (by simp [h.1]), ih h.2]

theorem handleSendSms_on_error (env : DispatchEnv) (store : List NotificationRecord)
    (body : SmsRequestBody) (e : ValidationError)
    (hval : validateSendSms body = Except.error e) :
    handleSendSms env store body = ⟨400, false, some e, none, store, []⟩ := by
  unfold handleSendSms
  rw [hval]

theorem handleSendSms_on_ok (env : DispatchEnv) (store : List NotificationRecord)
    (body : SmsRequestBody) (nums : List String) (msg : String)
    (hval : validateSendSms body = Except.ok (nums, msg)) :
    handleSendSms env store body =
      (if (runSendLoop env msg body.parkingLot 0 nums store).results.all
            (fun r => r.status == "failed") = true then
        ⟨500, false, none,
          some (runSendLoop env msg body.parkingLot 0 nums store).results,
          (runSendLoop env msg body.parkingLot 0 nums store).store,
          (runSendLoop env msg body.parkingLot 0 nums store).calls⟩
      else
        ⟨200, true, none,
          some (runSendLoop env msg body.parkingLot 0 nums store).results,
          (runSendLoop env msg body.parkingLot 0 nums store).store,
          (runSendLoop env msg body.parkingLot 0 nums store).calls⟩) := by
  unfold handleSendSms
  rw [hval]

theorem validate_recipients_fail (body : SmsRequestBody)
    (h : ∀ xs, body.phoneNumbers = JSVal.arr xs → xs = []) :
    validateSendSms body = Except.error ValidationError.missingOrInvalidRecipients := by
  obtain ⟨pns, m, pl⟩ := body
  unfold validateSendSms
  cases pns with
  | arr xs =>
    have hxs := h xs rfl
    subst hxs
    simp [jsTruthy, jsIsArray, jsArrLen]
  | undef => simp [jsTruthy, jsIsArray, jsArrLen]
  | null => simp [jsTruthy, jsIsArray, jsArrLen]
  | bool b => simp [jsTruthy, jsIsArray, jsArrLen]
  | num n => simp [jsTruthy, jsIsArray, jsArrLen]
  | str s => simp [jsTruthy, jsIsArray, jsArrLen]

theorem recipients_check_passes (xs : List String) (hne : xs ≠ []) :
    (!jsTruthy (JSVal.arr xs) || !jsIsArray (JSVal.arr xs)
      || jsArrLen (JSVal.arr xs) == 0) = false := by
  simp [jsTruthy, jsIsArray, jsArrLen]
  exact hne

theorem validate_message_fail (xs : List String) (m pl : JSVal) (hne : xs ≠ [])
    (hm : jsTruthy m = false ∨ jsIsString m = false) :
    validateSendSms ⟨JSVal.arr xs, m, pl⟩ =
      Except.error ValidationError.missingOrInvalidMessage := by
  unfold validateSendSms
  rw [if_neg (by simp [recipients_check_passes xs hne])]
  rw [if_pos ?_]
  cases hm with
  | inl h => simp [h]
  | inr h => simp [h]

theorem validate_invalid_numbers (xs : List String) (msg : String) (pl : JSVal)
    (hne : xs ≠ []) (hmsg : msg ≠ "")
    (hbad : xs.filter (fun n => !e164Test n) ≠ []) :
    validateSendSms ⟨JSVal.arr xs, JSVal.str msg, pl⟩ =
      Except.error (ValidationError.invalidPhoneNumbers
        (xs.filter (fun n => !e164Test n))) := by
  unfold validateSendSms
  rw [if_neg (by simp [recipients_check_passes xs hne])]
  rw [if_neg (by simp [jsTruthy, jsIsString, hmsg])]
  simp only [jsArrVals]
  rw [if_pos ?_]
  exact List.length_pos.mpr hbad

theorem validate_all_ok (xs : List String) (msg : String) (pl : JSVal)
    (hne : xs ≠ []) (hmsg : msg ≠ "")
    (hgood : xs.filter (fun n => !e164Test n) = []) :
    validateSendSms ⟨JSVal.arr xs, JSVal.str msg, pl⟩ = Except.ok (xs, msg) := by
  unfold validateSendSms
  rw [if_neg (by simp [recipients_check_passes xs hne])]
  rw [if_neg (by simp [jsTruthy, jsIsString, hmsg])]
  simp only [jsArrVals, jsStrVal]
  rw [if_neg ?_]
  simp [hgood]

theorem successOutcome_fields (pn sid : String) :
    ((successOutcome pn sid).sid.isSome = true
        ↔ (successOutcome pn sid).status = "success") ∧
    ((successOutcome pn sid).error.isSome = true
        ↔ (successOutcome pn sid).status = "failed") := by
  constructor
  · simp [successOutcome]
  · simp [successOutcome]

theorem failedOutcome_fields (pn m : String) :
    ((failedOutcome pn m).sid.isSome = true
        ↔ (failedOutcome pn m).status = "success") ∧
    ((failedOutcome pn m).error.isSome = true
        ↔ (failedOutcome pn m).status = "failed") := by
  constructor
  · simp [failedOutcome]
  · simp [failedOutcome]

theorem runSendLoop_results_mem (env : DispatchEnv) (msg : String) (plot : JSVal)
    (nums : List String) :
    ∀ (i : Nat) (store : List NotificationRecord) (o : SendOutcome),
      o ∈ (runSendLoop env msg plot i nums store).results →
      o.phoneNumber ∈ nums ∧
      (o.status = "success" ∨ o.status = "failed") ∧
      (o.sid.isSome = true ↔ o.status = "success") ∧
      (o.error.isSome = true ↔ o.status = "failed") := by
  induction nums with
  | nil => intro i store o ho; simp [runSendLoop] at ho
  | cons pn rest ih =>
    intro i store o ho
    rw [runSendLoop] at ho
    cases hp : env.provider i pn with
    | ok sid =>
      cases hs : env.store i with
      | ok =>
        simp only [hp, hs, List.mem_cons] at ho
        cases ho with
        | inl h =>
          subst h
          exact ⟨List.mem_cons_self pn rest, Or.inl rfl,
            (successOutcome_fields pn sid).1, (successOutcome_fields pn sid).2⟩
        | inr htail =>
          have t := ih (i + 1) (store ++ [mkNotificationRecord pn msg plot]) o htail
          exact ⟨List.mem_cons_of_mem pn t.1, t.2⟩
      | err m =>
        simp only [hp, hs, List.mem_cons] at ho
        cases ho with
        | inl h =>
          subst h
          exact ⟨List.mem_cons_self pn rest, Or.inl rfl,
            (successOutcome_fields pn sid).1, (successOutcome_fields pn sid).2⟩
        | inr ho2 =>
          cases ho2 with
          | inl h =>
            subst h
            exact ⟨List.mem_cons_self pn rest, Or.inr rfl,
              (failedOutcome_fields pn m).1, (failedOutcome_fields pn m).2⟩
          | inr htail =>
            have t := ih (i + 1) store o htail
            exact ⟨List.mem_cons_of_mem pn t.1, t.2⟩
    | err m =>
      simp only [hp, List.mem_cons] at ho
      cases ho with
      | inl h =>
        subst h
        exact ⟨List.mem_cons_self pn rest, Or.inr rfl,
          (failedOutcome_fields pn m).1, (failedOutcome_fields pn m).2⟩
      | inr htail =>
        have t := ih (i + 1) store o htail
        exact ⟨List.mem_cons_of_mem pn t.1, t.2⟩

theorem runSendLoop_store_eq (env : DispatchEnv) (msg : String) (plot : JSVal)
    (nums : List String) (hstore : ∀ j, env.store j = StoreResult.ok) :
    ∀ (i : Nat) (store : List NotificationRecord),
      (runSendLoop env msg plot i nums store).store =
        store ++ (successfulRecipients env i nums).map
          (fun pn => mkNotificationRecord pn msg plot) := by
  induction nums with
  | nil => intro i store; simp [runSendLoop, successfulRecipients]
  | cons pn rest ih =>
    intro i store
    rw [runSendLoop]
    cases hp : env.provider i pn with
    | ok sid =>
      simp only [hp, hstore i]
      rw [ih (i + 1) (store ++ [mkNotificationRecord pn msg plot])]
      rw [successfulRecipients]
      simp [hp, providerOk, List.append_assoc]
    | err m =>
      simp only [hp]
      rw [ih (i + 1) store]
      rw [successfulRecipients]
      simp [hp, providerOk]

/-! Claim theorems. -/

/-- Claim C1 (code bug at the failing input): with one validated recipient
whose provider dispatch succeeds and whose document-store append fails, the
handler produces two outcomes for the single recipient — the per-recipient
catch of server.js lines 169-172 also catches the failed store write of lines
162-168 and pushes an extra failed outcome — so the outcome count exceeds the
recipient count, against the invariant the claim states. -/
theorem send_sms_store_failure_breaks_outcome_count :
    (handleSendSms storeFailEnv [] oneRecipientBody).results =
      some [successOutcome "+15551234567" "SM123",
        failedOutcome "+15551234567" "permission denied"] ∧
    ((handleSendSms storeFailEnv [] oneRecipientBody).results.getD []).length = 2 ∧
    jsArrLen oneRecipientBody.phoneNumbers = 1 := by
  exact ⟨by decide, by decide, by decide⟩

/-- Claim C2 (code bug at the failing input): when the provider dispatch for
a recipient succeeds and only the subsequent store append fails, the success
outcome does stay in the report, but the handler additionally reports a
failed outcome for that same delivered recipient, against the claim that the
store write never turns a delivered message into a failed outcome. -/
theorem send_sms_store_failure_adds_failed_outcome :
    storeFailEnv.provider 0 "+15551234567" = ProviderResult.ok "SM123" ∧
    storeFailEnv.store 0 = StoreResult.err "permission denied" ∧
    ((handleSendSms storeFailEnv [] oneRecipientBody).results.getD []).any
      (fun o => o.phoneNumber == "+15551234567" && o.status == "success") = true ∧
    ((handleSendSms storeFailEnv [] oneRecipientBody).results.getD []).any
      (fun o => o.phoneNumber == "+15551234567" && o.status == "failed") = true := by
  exact ⟨rfl, rfl, by decide, by decide⟩

/-- Claim C3: a request body whose `phoneNumbers` field is absent, not an
array, or an empty array is answered with status 400 and the
missing-or-invalid-recipients error, and no provider call is made. -/
theorem send_sms_rejects_missing_or_empty_recipients (env : DispatchEnv)
    (store : List NotificationRecord) (body : SmsRequestBody)
    (h : ∀ xs, body.phoneNumbers = JSVal.arr xs → xs = []) :
    (handleSendSms env store body).status = 400 ∧
    (handleSendSms env store body).error =
      some ValidationError.missingOrInvalidRecipients ∧
    (handleSendSms env store body).calls = [] := by
  rw [handleSendSms_on_error env store body _ (validate_recipients_fail body h)]
  exact ⟨rfl, rfl, rfl⟩

theorem send_sms_rejects_missing_or_empty_recipients_witness :
    (handleSendSms storeFailEnv [] ⟨JSVal.arr [], JSVal.str "hi", JSVal.undef⟩).status
      = 400 ∧
    (handleSendSms storeFailEnv [] ⟨JSVal.arr [], JSVal.str "hi", JSVal.undef⟩).error
      = some ValidationError.missingOrInvalidRecipients ∧
    (handleSendSms storeFailEnv [] ⟨JSVal.arr [], JSVal.str "hi", JSVal.undef⟩).calls
      = [] :=
  send_sms_rejects_missing_or_empty_recipients storeFailEnv []
    ⟨JSVal.arr [], JSVal.str "hi", JSVal.undef⟩ (fun xs h => by cases h; rfl)

/-- Claim C4: when the recipients are a non-empty array and the message is a
non-empty string but at least one recipient fails the E.164 test, the handler
answers 400 with the invalid-phone-numbers error carrying every non-matching
entry (not only the first), and no provider call is made. -/
theorem send_sms_collects_all_invalid_numbers (env : DispatchEnv)
    (store : List NotificationRecord) (xs : List String) (msg : String)
    (pl : JSVal) (hne : xs ≠ []) (hmsg : msg ≠ "")
    (hbad : ∃ x ∈ xs, e164Test x = false) :
    (handleSendSms env store ⟨JSVal.arr xs, JSVal.str msg, pl⟩).status = 400 ∧
    (handleSendSms env store ⟨JSVal.arr xs, JSVal.str msg, pl⟩).error =
      some (ValidationError.invalidPhoneNumbers
        (xs.filter (fun n => !e164Test n))) ∧
    (∀ x ∈ xs, e164Test x = false → x ∈ xs.filter (fun n => !e164Test n)) ∧
    (handleSendSms env store ⟨JSVal.arr xs, JSVal.str msg, pl⟩).calls = [] := by
  have hfil : xs.filter (fun n => !e164Test n) ≠ [] := by
    obtain ⟨x, hx, hfx⟩ := hbad
    exact List.ne_nil_of_mem (List.mem_filter.mpr ⟨hx, by simp [hfx]⟩)
  rw [handleSendSms_on_error env store _ _
    (validate_invalid_numbers xs msg pl hne hmsg hfil)]
  refine ⟨rfl, rfl, ?_, rfl⟩
  intro x hx hfx
  exact List.mem_filter.mpr ⟨hx, by simp [hfx]⟩

theorem send_sms_collects_all_invalid_numbers_witness :
    (handleSendSms storeFailEnv []
      ⟨JSVal.arr ["+15551234567", "bad-number"], JSVal.str "hi", JSVal.undef⟩).status
      = 400 ∧
    (handleSendSms storeFailEnv []
      ⟨JSVal.arr ["+15551234567", "bad-number"], JSVal.str "hi", JSVal.undef⟩).error
      = some (ValidationError.invalidPhoneNumbers ["bad-number"]) ∧
    "bad-number" ∈ (["+15551234567", "bad-number"] : List String).filter
      (fun n => !e164Test n) ∧
    (handleSendSms storeFailEnv []
      ⟨JSVal.arr ["+15551234567", "bad-number"], JSVal.str "hi", JSVal.undef⟩).calls
      = [] := by
  have h := send_sms_collects_all_invalid_numbers storeFailEnv []
    ["+15551234567", "bad-number"] "hi" JSVal.undef (by decide) (by decide)
    ⟨"bad-number", by decide, by decide⟩
  refine ⟨h.1, ?_, h.2.2.1 "bad-number" (by decide) (by decide), h.2.2.2⟩
  rw [h.2.1]
  rfl

/-- Claim C5: once validation succeeds and every per-recipient attempt has
settled, the handler answers 500 with success=false when every outcome is
failed, and 200 with success=true otherwise, in both cases returning the full
outcome list of the loop. -/
theorem send_sms_overall_status_after_settle (env : DispatchEnv)
    (store : List NotificationRecord) (body : SmsRequestBody)
    (nums : List String) (msg : String)
    (hval : validateSendSms body = Except.ok (nums, msg)) :
    (handleSendSms env store body).results =
      some (runSendLoop env msg body.parkingLot 0 nums store).results ∧
    ((runSendLoop env msg body.parkingLot 0 nums store).results.all
        (fun r => r.status == "failed") = true →
      (handleSendSms env store body).status = 500 ∧
      (handleSendSms env store body).success = false) ∧
    ((runSendLoop env msg body.parkingLot 0 nums store).results.all
        (fun r => r.status == "failed") = false →
      (handleSendSms env store body).status = 200 ∧
      (handleSendSms env store body).success = true) := by
  rw [handleSendSms_on_ok env store body nums msg hval]
  cases hall : (runSendLoop env msg body.parkingLot 0 nums store).results.all
      (fun r => r.status == "failed") with
  | true =>
    refine ⟨?_, ?_, ?_⟩
    · simp
    · intro _
      exact ⟨by simp, by simp⟩
    · intro hf
      exact absurd hf (by simp)
  | false =>
    refine ⟨?_, ?_, ?_⟩
    · simp
    · intro ht
      exact absurd ht (by simp)
    · intro _
      exact ⟨by simp, by simp⟩

theorem send_sms_overall_status_after_settle_witness :
    (handleSendSms allFailEnv [] oneRecipientBody).status = 500 ∧
    (handleSendSms allFailEnv [] oneRecipientBody).success = false ∧
    (handleSendSms allFailEnv [] oneRecipientBody).results =
      some [failedOutcome "+15551234567" "unreachable carrier"] := by
  have h := send_sms_overall_status_after_settle allFailEnv [] oneRecipientBody
    ["+15551234567"] "hi" rfl
  refine ⟨(h.2.1 (by decide)).1, (h.2.1 (by decide)).2, ?_⟩
  rw [h.1]
  rfl

/-- Claim C6: the validation rules run in source order with the first failure
winning — a failing recipients rule is reported even when the message is also
invalid — and with valid recipients, a message that is absent, not a string,
or an empty string is answered with status 400 and the
missing-or-invalid-message error, with no provider call made. -/
theorem send_sms_validation_order_message_rule (env : DispatchEnv)
    (store : List NotificationRecord) (pns m pl : JSVal) :
    ((∀ xs, pns = JSVal.arr xs → xs = []) →
      (handleSendSms env store ⟨pns, m, pl⟩).error =
        some ValidationError.missingOrInvalidRecipients) ∧
    (∀ xs, pns = JSVal.arr xs → xs ≠ [] →
      (jsTruthy m = false ∨ jsIsString m = false) →
      (handleSendSms env store ⟨pns, m, pl⟩).status = 400 ∧
      (handleSendSms env store ⟨pns, m, pl⟩).error =
        some ValidationError.missingOrInvalidMessage ∧
      (handleSendSms env store ⟨pns, m, pl⟩).calls = []) := by
  constructor
  · intro h
    rw [handleSendSms_on_error env store _ _
      (validate_recipients_fail ⟨pns, m, pl⟩ h)]
  · intro xs hxs hne hm
    subst hxs
    rw [handleSendSms_on_error env store _ _
      (validate_message_fail xs m pl hne hm)]
    exact ⟨rfl, rfl, rfl⟩

theorem send_sms_validation_order_message_rule_witness :
    (handleSendSms allFailEnv [] ⟨JSVal.arr [], JSVal.num 0, JSVal.undef⟩).error =
      some ValidationError.missingOrInvalidRecipients ∧
    (handleSendSms allFailEnv []
      ⟨JSVal.arr ["+15551234567"], JSVal.str "", JSVal.undef⟩).status = 400 ∧
    (handleSendSms allFailEnv []
      ⟨JSVal.arr ["+15551234567"], JSVal.str "", JSVal.undef⟩).error =
      some ValidationError.missingOrInvalidMessage ∧
    (handleSendSms allFailEnv []
      ⟨JSVal.arr ["+15551234567"], JSVal.str "", JSVal.undef⟩).calls = [] := by
  have h1 := (send_sms_validation_order_message_rule allFailEnv []
    (JSVal.arr []) (JSVal.num 0) JSVal.undef).1 (fun xs h => by cases h; rfl)
  have h2 := (send_sms_validation_order_message_rule allFailEnv []
    (JSVal.arr ["+15551234567"]) (JSVal.str "") JSVal.undef).2
    ["+15551234567"] rfl (by decide) (Or.inl (by decide))
  exact ⟨h1, h2.1, h2.2.1, h2.2.2⟩

/-- Claim C7: every outcome produced by the dispatch loop carries a recipient
taken from the input list, a status that is "success" or "failed", a provider
message id present exactly when the status is "success", and a failure reason
present exactly when the status is "failed". -/
theorem send_sms_outcome_shape (env : DispatchEnv) (msg : String) (plot : JSVal)
    (nums : List String) (i : Nat) (store : List NotificationRecord)
    (o : SendOutcome) (ho : o ∈ (runSendLoop env msg plot i nums store).results) :
    o.phoneNumber ∈ nums ∧
    (o.status = "success" ∨ o.status = "failed") ∧
    (o.sid.isSome = true ↔ o.status = "success") ∧
    (o.error.isSome = true ↔ o.status = "failed") :=
  runSendLoop_results_mem env msg plot nums i store o ho

theorem send_sms_outcome_shape_witness :
    (failedOutcome "+15551234567" "permission denied").phoneNumber ∈
      (["+15551234567"] : List String) ∧
    ((failedOutcome "+15551234567" "permission denied").status = "success" ∨
      (failedOutcome "+15551234567" "permission denied").status = "failed") ∧
    ((failedOutcome "+15551234567" "permission denied").sid.isSome = true ↔
      (failedOutcome "+15551234567" "permission denied").status = "success") ∧
    ((failedOutcome "+15551234567" "permission denied").error.isSome = true ↔
      (failedOutcome "+15551234567" "permission denied").status = "failed") :=
  send_sms_outcome_shape storeFailEnv "hi" JSVal.undef ["+15551234567"] 0 []
    (failedOutcome "+15551234567" "permission denied") (by decide)

/-- Claim C8: when the document store accepts every write, the handler run on
a valid request appends exactly one notification record per recipient whose
provider dispatch succeeds — and none for failed recipients — leaving the
pre-existing records untouched in front; the record carries the recipient,
the message body and the origin label, which defaults to "Unknown" when the
request omits `parkingLot`. -/
theorem send_sms_records_for_successful_sends_only (env : DispatchEnv)
    (store : List NotificationRecord) (xs : List String) (msg : String)
    (pl : JSVal) (hne : xs ≠ []) (hmsg : msg ≠ "")
    (hgood : xs.filter (fun n => !e164Test n) = [])
    (hstore : ∀ j, env.store j = StoreResult.ok) :
    (handleSendSms env store ⟨JSVal.arr xs, JSVal.str msg, pl⟩).store =
      store ++ (successfulRecipients env 0 xs).map
        (fun pn => mkNotificationRecord pn msg pl) ∧
    (∀ pn m2, (mkNotificationRecord pn m2 JSVal.undef).parkingLot =
      JSVal.str "Unknown") := by
  constructor
  · rw [handleSendSms_on_ok env store _ xs msg
      (validate_all_ok xs msg pl hne hmsg hgood)]
    split
    · exact runSendLoop_store_eq env msg pl xs hstore 0 store
    · exact runSendLoop_store_eq env msg pl xs hstore 0 store
  · intro pn m2
    rfl

theorem send_sms_records_for_successful_sends_only_witness :
    (handleSendSms mixedEnv [] twoRecipientBody).store =
      [] ++ (successfulRecipients mixedEnv 0
        ["+15551234567", "+447911123456"]).map
        (fun pn => mkNotificationRecord pn "hi" JSVal.undef) ∧
    (mkNotificationRecord "+15551234567" "hi" JSVal.undef).parkingLot =
      JSVal.str "Unknown" := by
  have h := send_sms_records_for_successful_sends_only mixedEnv []
    ["+15551234567", "+447911123456"] "hi" JSVal.undef (by decide) (by decide)
    (by decide) (fun _ => rfl)
  exact ⟨h.1, h.2 "+15551234567" "hi"⟩

/-- Claim C9: for a request path ending in ".html" or equal to the root path,
if the resolved file exists the middleware responds with the file content
after the configuration script has been inserted immediately before the
head-closing tag (the part before the first `</head>` occurrence, then the
script, then `</head>` and the rest), and if the file does not exist the
middleware is a no-op that falls through. -/
theorem static_host_injects_env_into_existing_html
    (fileSystem : String → Option String) (envScript reqPath : String)
    (hpath : strEndsWith reqPath ".html" = true ∨ reqPath = "/") :
    (∀ html, fileSystem (resolvePath reqPath) = some html →
      envInjectionMiddleware fileSystem envScript reqPath =
        MiddlewareResult.send (injectEnv envScript html) ∧
      ∀ a b : List Char, splitAtFirst "</head>".data html.data = some (a, b) →
        (injectEnv envScript html).data =
          a ++ envScript.data ++ "</head>".data ++ b ∧
        html.data = a ++ "</head>".data ++ b) ∧
    (fileSystem (resolvePath reqPath) = none →
      envInjectionMiddleware fileSystem envScript reqPath =
        MiddlewareResult.next) := by
  have hcond : (strEndsWith reqPath ".html" || reqPath == "/") = true := by
    cases hpath with
    | inl h => simp [h]
    | inr h => simp [h]
  constructor
  · intro html hfile
    constructor
    · unfold envInjectionMiddleware
      rw [if_pos hcond, hfile]
    · intro a b hsplit
      have hsound := splitAtFirst_eq_some "</head>".data (by decide)
        html.data a b hsplit
      refine ⟨?_, hsound.1⟩
      unfold injectEnv replaceFirst
      rw [hsplit]
      simp [List.append_assoc]
  · intro hnone
    unfold envInjectionMiddleware
    rw [if_pos hcond, hnone]

theorem static_host_injects_env_into_existing_html_witness :
    envInjectionMiddleware
        (fun p => if p == "public/index.html" then some "<head></head>" else none)
        "INJECTED" "/" =
      MiddlewareResult.send (injectEnv "INJECTED" "<head></head>") ∧
    (injectEnv "INJECTED" "<head></head>").data =
      "<head>".data ++ "INJECTED".data ++ "</head>".data ++ [] ∧
    envInjectionMiddleware
        (fun p => if p == "public/index.html" then some "<head></head>" else none)
        "INJECTED" "/missing.html" = MiddlewareResult.next := by
  have h := static_host_injects_env_into_existing_html
    (fun p => if p == "public/index.html" then some "<head></head>" else none)
    "INJECTED" "/" (Or.inr rfl)
  have h1 := h.1 "<head></head>" (by decide)
  have h2 := h1.2 "<head>".data [] (by decide)
  have h3 := static_host_injects_env_into_existing_html
    (fun p => if p == "public/index.html" then some "<head></head>" else none)
    "INJECTED" "/missing.html" (Or.inl (by decide))
  exact ⟨h1.1, h2.1, h3.2 (by decide)⟩

/-- Claim C10: the injection replaces only the first `</head>` occurrence —
the document splits as a head-tag-free part, the first occurrence, and an
untouched remainder in which any later occurrence survives verbatim — and a
document with no `</head>` at all is served unmodified, the middleware still
responding instead of falling through whenever the file exists. -/
theorem static_host_replaces_only_first_head_tag (envScript html : String)
    (fileSystem : String → Option String) (reqPath : String) :
    (∀ a b : List Char, splitAtFirst "</head>".data html.data = some (a, b) →
      (injectEnv envScript html).data =
        a ++ envScript.data ++ "</head>".data ++ b ∧
      html.data = a ++ "</head>".data ++ b ∧
      containsSub "</head>".data a = false) ∧
    (containsSub "</head>".data html.data = false →
      injectEnv envScript html = html) ∧
    ((strEndsWith reqPath ".html" || reqPath == "/") = true →
      fileSystem (resolvePath reqPath) = some html →
      envInjectionMiddleware fileSystem envScript reqPath =
        MiddlewareResult.send (injectEnv envScript html)) := by
  refine ⟨?_, ?_, ?_⟩
  · intro a b hsplit
    have hsound := splitAtFirst_eq_some "</head>".data (by decide)
      html.data a b hsplit
    refine ⟨?_, hsound.1, hsound.2⟩
    unfold injectEnv replaceFirst
    rw [hsplit]
    simp [List.append_assoc]
  · intro hno
    unfold injectEnv replaceFirst
    rw [splitAtFirst_eq_none "</head>".data html.data hno]
  · intro hcond hfile
    unfold envInjectionMiddleware
    rw [if_pos hcond, hfile]

theorem static_host_replaces_only_first_head_tag_witness :
    (injectEnv "S" "<head></head><p></head>").data =
      "<head>".data ++ "S".data ++ "</head>".data ++ "<p></head>".data ∧
    containsSub "</head>".data "<head>".data = false ∧
    injectEnv "S" "<body>plain</body>" = "<body>plain</body>" ∧
    envInjectionMiddleware (fun _ => some "<body>plain</body>") "S"
      "/page.html" = MiddlewareResult.send (injectEnv "S" "<body>plain</body>") := by
  have h1 := (static_host_replaces_only_first_head_tag "S"
    "<head></head><p></head>" (fun _ => none) "/").1
    "<head>".data "<p></head>".data (by decide)
  have h2 := static_host_replaces_only_first_head_tag "S" "<body>plain</body>"
    (fun _ => some "<body>plain</body>") "/page.html"
  exact ⟨h1.1, h1.2.2, h2.2.1 (by decide), h2.2.2 (by decide) rfl⟩
